import Mathlib

/-!
Verification of the Recording & Upload Orchestration core of the Cap
desktop recording application (apps/desktop/src-tauri/src/main.rs and the
recording/upload modules it drives).

The shallow embedding below models:
* the shared `RecordingState` record exactly as it is declared and
  initialized in `main.rs` (setup closure, lines 199-212);
* the primary-monitor maximum-resolution computation (lines 148-160);
* the system-tray left-click handler (lines 166-184);
* the recording commands `start_dual_recording` / `stop_all_recordings`
  and the upload registry, whose source files (`recording.rs`,
  `upload.rs`) are not part of the provided sources; those are modelled
  from the specification, as marked in their doc comments.

Rust `PathBuf` is modelled as `List String` (path components);
`PathBuf::new()` is `[]`.  Subprocess handles and upload task handles are
modelled as `Nat` identifiers.  `u32` display dimensions are `Nat`, with
the `u32` wrap-around of the `width * height` sort key made explicit.
-/

/-- A video mode of the primary monitor (winit `VideoMode`): its size in
physical pixels.  Only the size is relevant to `main.rs`. -/
structure VideoMode where
  width : Nat
  height : Nat
deriving Repr, DecidableEq

/-- The sort key `mode.size().width * mode.size().height` used by
`max_by_key` in `main.rs` line 152; the multiplication is `u32 * u32`,
which wraps modulo `2^32` in release builds. -/
def modeKey (m : VideoMode) : Nat :=
  (m.width * m.height) % 2 ^ 32

/-- One comparison step of `max_by_key`: keep the candidate with the
larger key, preferring the later element on ties (Rust's `max_by_key`
returns the last maximal element). -/
def maxModeStep (acc : Option VideoMode) (m : VideoMode) : Option VideoMode :=
  match acc with
  | none => some m
  | some a => if modeKey a ≤ modeKey m then some m else some a

/-- `video_modes.iter().max_by_key(|mode| mode.size().width * mode.size().height)`
(main.rs line 152).  Rust's `max_by_key` returns `None` on an empty
iterator and the LAST maximal element when several tie. -/
def maxMode (modes : List VideoMode) : Option VideoMode :=
  modes.foldl maxModeStep none

/-- The `(max_width, max_height)` pair of main.rs lines 154-160: the size
of the maximal video mode, or `(0, 0)` when the monitor reports no video
modes. -/
def maxDims (modes : List VideoMode) : Nat × Nat :=
  match maxMode modes with
  | some m => (m.width, m.height)
  | none => (0, 0)

/-- Modelled from the spec: the requested capture region of a recording
(the source file `recording.rs`, which declares the options record, is
missing; §3 lists "capture region" among the recording options). -/
structure Region where
  x : Nat
  y : Nat
  width : Nat
  height : Nat
deriving Repr, DecidableEq

/-- Modelled from the spec: the immutable recording-options snapshot
chosen at start time — "capture region, device selection, output paths"
(§3, `options`).  `recording.rs` is missing from the sources. -/
structure RecordingOptions where
  region : Region
  audio_device : Option String
  output_path : List String
deriving Repr, DecidableEq

/-- The shared session record `RecordingState` of `recording.rs`, with
the fields exactly as constructed in `main.rs` lines 200-210:
`media_process`, `upload_handles`, `recording_options`, `shutdown_flag`,
`video_uploading_finished`, `audio_uploading_finished`, `data_dir`,
`max_screen_width`, `max_screen_height`. -/
structure RecordingState where
  media_process : Option Nat
  upload_handles : List Nat
  recording_options : Option RecordingOptions
  shutdown_flag : Bool
  video_uploading_finished : Bool
  audio_uploading_finished : Bool
  data_dir : Option (List String)
  max_screen_width : Nat
  max_screen_height : Nat
deriving Repr, DecidableEq

/-- The `RecordingState` built in the tauri `setup` closure
(main.rs lines 199-210): every session field empty/false, `data_dir`
set to `Some` of the resolved app-data directory — or `Some` of the
empty path when resolution fails (`unwrap_or_else(|| PathBuf::new())`,
line 199) — and the capture bounds taken from `maxDims`. -/
def setupRecordingState (app_data_dir : Option (List String))
    (modes : List VideoMode) : RecordingState :=
  let data_directory := app_data_dir.getD []
  { media_process := none
    upload_handles := []
    recording_options := none
    shutdown_flag := false
    video_uploading_finished := false
    audio_uploading_finished := false
    data_dir := some data_directory
    max_screen_width := (maxDims modes).1
    max_screen_height := (maxDims modes).2 }

/-- The error taxonomy of the recording core (spec §7). -/
inductive RecError where
  | AlreadyRecording
  | InvalidRegion
  | ProcessSpawnFailed
  | ProcessCrashed
  | UploadFailed
  | DrainTimeout
deriving Repr, DecidableEq

/-- Modelled from the spec: clamping of a requested capture region to the
`capture_bounds` ceiling (§4.2 `start`; `recording.rs` is missing).  The
origin is clamped into the bounds and the extent is clamped to what
remains addressable from the clamped origin. -/
def clampRegion (r : Region) (maxW maxH : Nat) : Region :=
  { x := min r.x maxW
    y := min r.y maxH
    width := min r.width (maxW - r.x)
    height := min r.height (maxH - r.y) }

/-- Modelled from the spec: a region request is valid when it is not
degenerate after clamping to the capture bounds (§4.2: `InvalidRegion` if
the requested capture area is degenerate or exceeds bounds after
clamping). -/
def regionValid (r : Region) (maxW maxH : Nat) : Bool :=
  let c := clampRegion r maxW maxH
  decide (0 < c.width) && decide (0 < c.height)

/-- Modelled from the spec: the state transition of the
`start_dual_recording` command (§4.2, §4.5; `recording.rs` is missing).
`spawn_result` stands for the outcome of launching the external encoder
process: `some pid` on success, `none` when the process cannot be
started.  On success the fresh session is populated: `media_process`,
`recording_options` and the session's output directory are set, the
shutdown and per-stream flags start false. -/
def start_dual_recording (st : RecordingState) (opts : RecordingOptions)
    (spawn_result : Option Nat) : Except RecError RecordingState :=
  if st.media_process.isSome = true then
    .error .AlreadyRecording
  else if regionValid opts.region st.max_screen_width st.max_screen_height = false then
    .error .InvalidRegion
  else
    match spawn_result with
    | none => .error .ProcessSpawnFailed
    | some pid =>
        .ok { st with
                media_process := some pid
                recording_options := some opts
                shutdown_flag := false
                video_uploading_finished := false
                audio_uploading_finished := false
                data_dir := some opts.output_path }

/-- Modelled from the spec: registering an in-flight upload task with
the Upload Task Registry (§4.3 `register`; `upload.rs`/`recording.rs`
are missing).  Upload tasks belong to the in-progress session, so
registration is a no-op when no session exists. -/
def register_upload (st : RecordingState) (h : Nat) : RecordingState :=
  if st.media_process.isSome = true then
    { st with upload_handles := st.upload_handles ++ [h] }
  else st

/-- Modelled from the spec: completing a registered upload task removes
it from the tracked set (§4.3 `complete`).  `List.erase` removes at most
the first occurrence, so no task is ever removed twice. -/
def complete_upload (st : RecordingState) (h : Nat) : RecordingState :=
  { st with upload_handles := st.upload_handles.erase h }

/-- Modelled from the spec: the drain check of the Upload Task Registry
(§4.3 `drain`): success exactly when the tracked set is empty, a
`DrainTimeout` diagnosis otherwise (the blocking wait of the real
`drain` is represented by its post-wait observation). -/
def drain_result (st : RecordingState) : Except RecError Unit :=
  if st.upload_handles.isEmpty then .ok () else .error .DrainTimeout

/-- The orchestration state: the shared `RecordingState` plus two
observers used to state the claims — the number of subprocess-stop
signals sent during the current session, the outcome recorded by the
most recently completed shutdown, and the failure diagnostics
accumulated during the current session. -/
structure MState where
  st : RecordingState
  stop_signals : Nat
  last_outcome : Option (List RecError)
  failures : List RecError
deriving Repr, DecidableEq

/-- Modelled from the spec: the StopRequested transition (§4.4 state 2).
Only an active session that is not already shutting down is signalled:
`shutdown_flag` is raised and exactly one graceful-stop signal is sent
to the subprocess; otherwise the request is a no-op. -/
def stop_request (m : MState) : MState :=
  if m.st.media_process.isSome = true ∧ m.st.shutdown_flag = false then
    { m with
        st := { m.st with shutdown_flag := true }
        stop_signals := m.stop_signals + 1 }
  else m

/-- Modelled from the spec: the confirmation that the video stream's
output is finalized and flushed sets `video_uploading_finished` (§4.2
`stop` side effect, §3).  The flag belongs to the in-progress session. -/
def mark_video_done (st : RecordingState) : RecordingState :=
  if st.media_process.isSome = true then { st with video_uploading_finished := true } else st

/-- Modelled from the spec: the confirmation that the audio stream's
output is finalized and flushed sets `audio_uploading_finished` (§4.2
`stop` side effect, §3). -/
def mark_audio_done (st : RecordingState) : RecordingState :=
  if st.media_process.isSome = true then { st with audio_uploading_finished := true } else st

/-- The empty/idle form of the session fields: the form the record is
created in at startup and reset to after a completed stop sequence
(spec §3 Lifecycle).  The read-only fields (`data_dir` resolved at
setup, capture bounds) are untouched. -/
def resetSession (st : RecordingState) : RecordingState :=
  { st with
      media_process := none
      upload_handles := []
      recording_options := none
      shutdown_flag := false
      video_uploading_finished := false
      audio_uploading_finished := false }

/-- Modelled from the spec: the final transition of the Shutdown
Coordinator out of UploadsDraining (§4.4 states 4-5): only when a
shutdown was requested, both streams are flushed and the upload registry
has drained to empty is the session state reset to its empty form and
the aggregate outcome recorded; otherwise nothing happens. -/
def finish_stop (m : MState) : MState :=
  if m.st.shutdown_flag = true ∧ m.st.video_uploading_finished = true ∧
      m.st.audio_uploading_finished = true ∧ m.st.upload_handles.isEmpty = true then
    { st := resetSession m.st
      stop_signals := m.stop_signals
      last_outcome := some m.failures
      failures := m.failures }
  else m

/-- The atomic transitions of the orchestration core, as serialized by
the session mutex: a start command, a stop request, the two stream-flush
confirmations, upload registration and completion, and the final
drain/reset transition. -/
inductive Ev where
  | start (opts : RecordingOptions) (spawn_result : Option Nat)
  | stopReq
  | videoDone
  | audioDone
  | register (h : Nat)
  | complete (h : Nat) (ok : Bool)
  | finish
deriving Repr, DecidableEq

/-- One serialized transition of the orchestration core. -/
def step (m : MState) (e : Ev) : MState :=
  match e with
  | .start opts spawn_result =>
      match start_dual_recording m.st opts spawn_result with
      | .ok st' =>
          { st := st', stop_signals := 0, last_outcome := m.last_outcome, failures := [] }
      | .error _ => m
  | .stopReq => stop_request m
  | .videoDone => { m with st := mark_video_done m.st }
  | .audioDone => { m with st := mark_audio_done m.st }
  | .register h => { m with st := register_upload m.st h }
  | .complete h ok =>
      { m with
          st := complete_upload m.st h
          failures := if ok then m.failures else m.failures ++ [.UploadFailed] }
  | .finish => finish_stop m

/-- The upload completions observed while the Shutdown Coordinator waits
in UploadsDraining: each entry is an upload handle together with that
task's success flag. -/
structure ShutdownEnv where
  completions : List (Nat × Bool)
deriving Repr, DecidableEq

/-- Run the drain wait: apply the upload completions delivered while the
coordinator waits for the registry to empty. -/
def runDrain (m : MState) (cs : List (Nat × Bool)) : MState :=
  cs.foldl (fun acc c => step acc (.complete c.1 c.2)) m

/-- The state reached by a stop sequence after the StopRequested,
StreamsFlushing and UploadsDraining work has been applied: the stop
request, both stream-flush confirmations, and the upload completions
delivered during the drain wait (spec §4.4 states 2-4). -/
def stopDrainPoint (m : MState) (env : ShutdownEnv) : MState :=
  runDrain (step (step (step m .stopReq) .videoDone) .audioDone) env.completions

/-- Modelled from the spec: the `stop_all_recordings` command (§4.5;
`recording.rs` is missing).  Idempotent: when no session is active it
returns immediately with the outcome of the completed shutdown and no
teardown runs.  Otherwise it runs the Shutdown Coordinator to
completion: request the stop (one subprocess signal), wait for both
streams to flush, wait for the uploads to drain, and reset the session
state; if the drain window closes with tasks still registered the
session is failed with `DrainTimeout` but the state is still reset
(§7: no error leaves the state stuck mid-transition). -/
def stop_all_recordings (m : MState) (env : ShutdownEnv) : MState × List RecError :=
  if m.st.media_process.isSome = true then
    if (stopDrainPoint m env).st.upload_handles.isEmpty = true then
      (step (stopDrainPoint m env) .finish, (stopDrainPoint m env).failures)
    else
      ({ st := resetSession (stopDrainPoint m env).st
         stop_signals := (stopDrainPoint m env).stop_signals
         last_outcome := some ((stopDrainPoint m env).failures ++ [.DrainTimeout])
         failures := (stopDrainPoint m env).failures ++ [.DrainTimeout] },
       (stopDrainPoint m env).failures ++ [.DrainTimeout])
  else
    (m, m.last_outcome.getD [])

/-- The system-tray left-click handler (main.rs lines 166-184): stop is
invoked only when `media_process.is_some()`; otherwise nothing runs and
the handler returns immediately.  The source discards the stop result
(`let _ = stop_all_recordings(state).await`); the returned outcome is
kept here as an observer. -/
def onTrayLeftClick (m : MState) (env : ShutdownEnv) : MState × Option (List RecError) :=
  if m.st.media_process.isSome = true then
    let r := stop_all_recordings m env
    (r.1, some r.2)
  else
    (m, none)

/-! ### Helper lemmas -/

theorem maxModeStep_foldl_spec (l : List VideoMode) (a : VideoMode) :
    ∃ c, l.foldl maxModeStep (some a) = some c ∧ (c = a ∨ c ∈ l) ∧
      modeKey a ≤ modeKey c ∧ ∀ x ∈ l, modeKey x ≤ modeKey c := by
  induction l generalizing a with
  | nil => exact ⟨a, rfl, Or.inl rfl, le_refl _, by simp⟩
  | cons b t ih =>
      by_cases h : modeKey a ≤ modeKey b
      · obtain ⟨c, hc, hmem, hle, hall⟩ := ih b
        refine ⟨c, ?_, ?_, ?_, ?_⟩
        · simpa [maxModeStep, h] using hc
        · rcases hmem with h1 | h1
          · exact Or.inr (by simp [h1])
          · exact Or.inr (by simp [h1])
        · exact le_trans h hle
        · intro x hx
          rcases List.mem_cons.mp hx with h1 | h1
          · simpa [h1] using hle
          · exact hall x h1
      · obtain ⟨c, hc, hmem, hle, hall⟩ := ih a
        refine ⟨c, ?_, ?_, ?_, ?_⟩
        · simpa [maxModeStep, h] using hc
        · rcases hmem with h1 | h1
          · exact Or.inl h1
          · exact Or.inr (by simp [h1])
        · exact hle
        · intro x hx
          rcases List.mem_cons.mp hx with h1 | h1
          · exact h1 ▸ le_trans (le_of_lt (lt_of_not_le h)) hle
          · exact hall x h1

theorem maxMode_spec (modes : List VideoMode) (c : VideoMode)
    (h : maxMode modes = some c) :
    c ∈ modes ∧ ∀ x ∈ modes, modeKey x ≤ modeKey c := by
  cases modes with
  | nil => simp [maxMode] at h
  | cons b t =>
      have hfold : maxMode (b :: t) = t.foldl maxModeStep (some b) := by
        simp [maxMode, List.foldl_cons, maxModeStep]
      obtain ⟨c', hc', hmem, hle, hall⟩ := maxModeStep_foldl_spec t b
      have hcc : c' = c := by
        rw [hfold, hc'] at h
        exact Option.some.inj h
      subst hcc
      constructor
      · rcases hmem with h1 | h1
        · simp [h1]
        · simp [h1]
      · intro x hx
        rcases List.mem_cons.mp hx with h1 | h1
        · simpa [h1] using hle
        · exact hall x h1

theorem start_ok_elim {st : RecordingState} {opts : RecordingOptions}
    {sp : Option Nat} {st' : RecordingState}
    (h : start_dual_recording st opts sp = .ok st') :
    st.media_process.isSome = false ∧
    regionValid opts.region st.max_screen_width st.max_screen_height = true ∧
    ∃ pid, sp = some pid ∧
      st' = { st with
                media_process := some pid
                recording_options := some opts
                shutdown_flag := false
                video_uploading_finished := false
                audio_uploading_finished := false
                data_dir := some opts.output_path } := by
  unfold start_dual_recording at h
  by_cases h1 : st.media_process.isSome = true
  · simp [h1] at h
  · by_cases h2 : regionValid opts.region st.max_screen_width st.max_screen_height = false
    · simp [h1, h2] at h
    · cases sp with
      | none => simp [h1, h2] at h
      | some pid =>
          simp only [h1, h2, if_false, if_neg] at h
          refine ⟨by simpa using h1, by simpa using h2, pid, rfl, ?_⟩
          simpa using (Except.ok.inj h).symm

theorem start_active {st : RecordingState} (opts : RecordingOptions)
    (sp : Option Nat) (h : st.media_process.isSome = true) :
    start_dual_recording st opts sp = .error .AlreadyRecording := by
  unfold start_dual_recording
  simp [h]

theorem step_preserves_bounds (m : MState) (e : Ev) :
    (step m e).st.max_screen_width = m.st.max_screen_width ∧
    (step m e).st.max_screen_height = m.st.max_screen_height := by
  cases e with
  | start opts sp =>
      simp only [step]
      cases hs : start_dual_recording m.st opts sp with
      | ok st' =>
          obtain ⟨_, _, pid, _, hst⟩ := start_ok_elim hs
          subst hst
          exact ⟨rfl, rfl⟩
      | error _ => exact ⟨rfl, rfl⟩
  | stopReq =>
      simp only [step, stop_request]
      split <;> exact ⟨rfl, rfl⟩
  | videoDone =>
      simp only [step, mark_video_done]
      split <;> exact ⟨rfl, rfl⟩
  | audioDone =>
      simp only [step, mark_audio_done]
      split <;> exact ⟨rfl, rfl⟩
  | register h =>
      simp only [step, register_upload]
      split <;> exact ⟨rfl, rfl⟩
  | complete h ok => exact ⟨rfl, rfl⟩
  | finish =>
      simp only [step, finish_stop]
      split <;> exact ⟨rfl, rfl⟩

theorem runDrain_preserves (cs : List (Nat × Bool)) (m : MState) :
    (runDrain m cs).st.media_process = m.st.media_process ∧
    (runDrain m cs).st.shutdown_flag = m.st.shutdown_flag ∧
    (runDrain m cs).st.video_uploading_finished = m.st.video_uploading_finished ∧
    (runDrain m cs).st.audio_uploading_finished = m.st.audio_uploading_finished ∧
    (runDrain m cs).st.data_dir = m.st.data_dir ∧
    (runDrain m cs).st.recording_options = m.st.recording_options ∧
    (runDrain m cs).st.max_screen_width = m.st.max_screen_width ∧
    (runDrain m cs).st.max_screen_height = m.st.max_screen_height ∧
    (runDrain m cs).stop_signals = m.stop_signals := by
  induction cs generalizing m with
  | nil => exact ⟨rfl, rfl, rfl, rfl, rfl, rfl, rfl, rfl, rfl⟩
  | cons c t ih =>
      have h := ih (step m (.complete c.1 c.2))
      simpa [runDrain, List.foldl_cons, step, complete_upload] using h

theorem stop_prefix_state (m : MState) (hm : m.st.media_process.isSome = true)
    (cs : List (Nat × Bool)) :
    (runDrain (step (step (step m .stopReq) .videoDone) .audioDone) cs).st.media_process
        = m.st.media_process ∧
    (runDrain (step (step (step m .stopReq) .videoDone) .audioDone) cs).st.shutdown_flag
        = true ∧
    (runDrain (step (step (step m .stopReq) .videoDone) .audioDone) cs).st.video_uploading_finished
        = true ∧
    (runDrain (step (step (step m .stopReq) .videoDone) .audioDone) cs).st.audio_uploading_finished
        = true ∧
    (runDrain (step (step (step m .stopReq) .videoDone) .audioDone) cs).stop_signals
        ≤ m.stop_signals + 1 := by
  have h1 : (step m .stopReq).st.media_process = m.st.media_process ∧
      (step m .stopReq).st.shutdown_flag = true ∧
      (step m .stopReq).stop_signals ≤ m.stop_signals + 1 := by
    simp only [step, stop_request]
    by_cases hf : m.st.shutdown_flag = false
    · simp [hm, hf]
    · simp only [hm, hf, and_false, true_and, if_neg, if_false]
      exact ⟨rfl, by simpa using hf, Nat.le_succ _⟩
  set m1 := step m .stopReq with hm1
  have h2 : (step m1 .videoDone).st.media_process = m.st.media_process ∧
      (step m1 .videoDone).st.shutdown_flag = true ∧
      (step m1 .videoDone).st.video_uploading_finished = true ∧
      (step m1 .videoDone).stop_signals ≤ m.stop_signals + 1 := by
    have hsome : m1.st.media_process.isSome = true := by rw [h1.1]; exact hm
    simp only [step, mark_video_done, hsome, if_pos]
    exact ⟨h1.1, h1.2.1, trivial, h1.2.2⟩
  set m2 := step m1 .videoDone with hm2
  have h3 : (step m2 .audioDone).st.media_process = m.st.media_process ∧
      (step m2 .audioDone).st.shutdown_flag = true ∧
      (step m2 .audioDone).st.video_uploading_finished = true ∧
      (step m2 .audioDone).st.audio_uploading_finished = true ∧
      (step m2 .audioDone).stop_signals ≤ m.stop_signals + 1 := by
    have hsome : m2.st.media_process.isSome = true := by rw [h2.1]; exact hm
    simp only [step, mark_audio_done, hsome, if_pos]
    exact ⟨h2.1, h2.2.1, h2.2.2.1, trivial, h2.2.2.2⟩
  set m3 := step m2 .audioDone with hm3
  obtain ⟨d1, d2, d3, d4, _, _, _, _, d9⟩ := runDrain_preserves cs m3
  exact ⟨d1.trans h3.1, d2.trans h3.2.1, d3.trans h3.2.2.1,
    d4.trans h3.2.2.2.1, d9.le.trans h3.2.2.2.2⟩

theorem stopDrainPoint_spec (m : MState) (env : ShutdownEnv)
    (hm : m.st.media_process.isSome = true) :
    (stopDrainPoint m env).st.media_process = m.st.media_process ∧
    (stopDrainPoint m env).st.shutdown_flag = true ∧
    (stopDrainPoint m env).st.video_uploading_finished = true ∧
    (stopDrainPoint m env).st.audio_uploading_finished = true ∧
    (stopDrainPoint m env).stop_signals ≤ m.stop_signals + 1 :=
  stop_prefix_state m hm env.completions

theorem stop_all_inactive (m : MState) (env : ShutdownEnv)
    (hm : m.st.media_process.isSome = false) :
    stop_all_recordings m env = (m, m.last_outcome.getD []) := by
  unfold stop_all_recordings
  simp [hm]

theorem stop_all_active_post (m : MState) (env : ShutdownEnv)
    (hm : m.st.media_process.isSome = true) :
    (stop_all_recordings m env).1.st.media_process = none ∧
    (stop_all_recordings m env).1.st.recording_options = none ∧
    (stop_all_recordings m env).1.st.shutdown_flag = false ∧
    (stop_all_recordings m env).1.st.video_uploading_finished = false ∧
    (stop_all_recordings m env).1.st.audio_uploading_finished = false ∧
    (stop_all_recordings m env).1.st.upload_handles = [] ∧
    (stop_all_recordings m env).1.last_outcome = some (stop_all_recordings m env).2 ∧
    (stop_all_recordings m env).1.stop_signals ≤ m.stop_signals + 1 := by
  obtain ⟨p1, p2, p3, p4, p5⟩ := stopDrainPoint_spec m env hm
  unfold stop_all_recordings
  rw [if_pos hm]
  by_cases he : (stopDrainPoint m env).st.upload_handles.isEmpty = true
  · rw [if_pos he]
    simp only [step, finish_stop, p2, p3, p4, he, and_self, if_pos, resetSession, if_true]
    exact ⟨trivial, trivial, trivial, trivial, trivial, trivial, trivial, p5⟩
  · rw [if_neg he]
    exact ⟨rfl, rfl, rfl, rfl, rfl, rfl, rfl, p5⟩

/-! ### Concrete sample states used by the witness theorems -/

def sampleRegion : Region := { x := 0, y := 0, width := 100, height := 100 }

def sampleOpts : RecordingOptions :=
  { region := sampleRegion, audio_device := none, output_path := ["session1"] }

def sampleMode : VideoMode := { width := 1920, height := 1080 }

def smallMode : VideoMode := { width := 1280, height := 720 }

def st0 : RecordingState := setupRecordingState (some ["data"]) [smallMode, sampleMode]

def m0 : MState := { st := st0, stop_signals := 0, last_outcome := none, failures := [] }

def mA : MState := step m0 (.start sampleOpts (some 7))

def mB : MState := step mA .stopReq

def env0 : ShutdownEnv := { completions := [] }

/-! ### Claim theorems -/

/-- C1: at most one recording session is active at any time.  A
`start_dual_recording` call made while `media_process` is `Some` is
rejected with `AlreadyRecording` and leaves the state unchanged, and of
two start calls serialized by the session mutex only the first can
succeed — the second fails with `AlreadyRecording`. -/
theorem c1_at_most_one_active_session :
    (∀ (st : RecordingState) (opts : RecordingOptions) (sp : Option Nat),
        st.media_process.isSome = true →
        start_dual_recording st opts sp = .error .AlreadyRecording) ∧
    (∀ (m : MState) (opts : RecordingOptions) (sp : Option Nat),
        m.st.media_process.isSome = true → step m (.start opts sp) = m) ∧
    (∀ (st st' : RecordingState) (o1 o2 : RecordingOptions) (p1 p2 : Option Nat),
        start_dual_recording st o1 p1 = .ok st' →
        start_dual_recording st' o2 p2 = .error .AlreadyRecording) := by
  refine ⟨fun st opts sp h => start_active opts sp h, ?_, ?_⟩
  · intro m opts sp h
    simp [step, start_active opts sp h]
  · intro st st' o1 o2 p1 p2 h
    obtain ⟨_, _, pid, _, hst⟩ := start_ok_elim h
    subst hst
    exact start_active o2 p2 rfl

/-- Witness for C1: starting while the sample session `mA` is active is
rejected and changes nothing. -/
theorem c1_witness :
    start_dual_recording mA.st sampleOpts (some 9) = .error .AlreadyRecording ∧
    step mA (.start sampleOpts (some 9)) = mA :=
  ⟨c1_at_most_one_active_session.1 mA.st sampleOpts (some 9) (by decide),
   c1_at_most_one_active_session.2.1 mA sampleOpts (some 9) (by decide)⟩

/-- C9: `start_dual_recording` fails with `AlreadyRecording` exactly when
a session is active, with `InvalidRegion` exactly when no session is
active and the requested region is degenerate after clamping to the
capture bounds, with `ProcessSpawnFailed` exactly when the region is
valid but the encoder process cannot be spawned, and succeeds in every
remaining case — no other outcome occurs. -/
theorem c9_start_error_characterization :
    ∀ (st : RecordingState) (opts : RecordingOptions) (sp : Option Nat),
      (start_dual_recording st opts sp = .error .AlreadyRecording ↔
        st.media_process.isSome = true) ∧
      (start_dual_recording st opts sp = .error .InvalidRegion ↔
        st.media_process.isSome = false ∧
        regionValid opts.region st.max_screen_width st.max_screen_height = false) ∧
      (start_dual_recording st opts sp = .error .ProcessSpawnFailed ↔
        st.media_process.isSome = false ∧
        regionValid opts.region st.max_screen_width st.max_screen_height = true ∧
        sp = none) ∧
      ((∃ st', start_dual_recording st opts sp = .ok st') ↔
        st.media_process.isSome = false ∧
        regionValid opts.region st.max_screen_width st.max_screen_height = true ∧
        sp.isSome = true) := by
  intro st opts sp
  unfold start_dual_recording
  cases hm : st.media_process.isSome <;>
    cases hv : regionValid opts.region st.max_screen_width st.max_screen_height <;>
      cases sp <;> simp [hm, hv]

/-- Witness for C9: with no session active and a valid region, a failed
spawn surfaces `ProcessSpawnFailed`, and a degenerate region surfaces
`InvalidRegion`. -/
theorem c9_witness :
    start_dual_recording st0 sampleOpts none = .error .ProcessSpawnFailed ∧
    start_dual_recording st0
        { sampleOpts with region := { x := 0, y := 0, width := 0, height := 5 } } (some 7) =
      .error .InvalidRegion :=
  ⟨((c9_start_error_characterization st0 sampleOpts none).2.2.1).mpr
      ⟨by decide, by decide, rfl⟩,
   ((c9_start_error_characterization st0
        { sampleOpts with region := { x := 0, y := 0, width := 0, height := 5 } }
        (some 7)).2.1).mpr ⟨by decide, by decide⟩⟩

/-- C10: at startup, `app_data_dir()` failure is absorbed by
`unwrap_or_else(|| PathBuf::new())` (main.rs line 199), so `data_dir` is
`Some` of the empty path rather than `None`; after setup `data_dir` is
always `Some`. -/
theorem c10_data_dir_always_some :
    ∀ (d : Option (List String)) (modes : List VideoMode),
      (setupRecordingState d modes).data_dir = some (d.getD []) ∧
      (setupRecordingState none modes).data_dir = some [] ∧
      (setupRecordingState d modes).data_dir.isSome = true := by
  intro d modes
  exact ⟨rfl, rfl, rfl⟩

/-- Witness for C10: with an unresolvable app-data directory the state
still carries `Some` of the empty path. -/
theorem c10_witness :
    (setupRecordingState none []).data_dir = some [] :=
  (c10_data_dir_always_some none []).2.1

/-- C2: `stop_all_recordings` is idempotent.  A second stop call after a
completed stop returns the identical state and the same outcome and
sends no further subprocess-stop signal; any single call sends at most
one signal; and a stop request on a session whose shutdown is already in
progress (`shutdown_flag` already true) is a no-op that sends no second
subprocess-stop signal. -/
theorem c2_stop_idempotent :
    (∀ (m : MState) (env env2 : ShutdownEnv),
        stop_all_recordings (stop_all_recordings m env).1 env2 =
          stop_all_recordings m env) ∧
    (∀ (m : MState) (env : ShutdownEnv),
        (stop_all_recordings m env).1.stop_signals ≤ m.stop_signals + 1) ∧
    (∀ (m : MState) (env env2 : ShutdownEnv),
        (stop_all_recordings (stop_all_recordings m env).1 env2).1.stop_signals =
          (stop_all_recordings m env).1.stop_signals) ∧
    (∀ (m : MState), m.st.shutdown_flag = true → stop_request m = m) := by
  have key : ∀ (m : MState) (env env2 : ShutdownEnv),
      stop_all_recordings (stop_all_recordings m env).1 env2 =
        stop_all_recordings m env := by
    intro m env env2
    by_cases hm : m.st.media_process.isSome = true
    · have post := stop_all_active_post m env hm
      have hnone : (stop_all_recordings m env).1.st.media_process.isSome = false := by
        rw [post.1]; rfl
      rw [stop_all_inactive _ env2 hnone, post.2.2.2.2.2.2.1]
      exact Prod.mk.eta
    · have hm' : m.st.media_process.isSome = false := by simpa using hm
      rw [stop_all_inactive m env hm']
      exact stop_all_inactive m env2 hm'
  refine ⟨key, ?_, ?_, ?_⟩
  · intro m env
    by_cases hm : m.st.media_process.isSome = true
    · exact (stop_all_active_post m env hm).2.2.2.2.2.2.2
    · have hm' : m.st.media_process.isSome = false := by simpa using hm
      rw [stop_all_inactive m env hm']
      exact Nat.le_succ _
  · intro m env env2
    rw [key m env env2]
  · intro m h
    unfold stop_request
    rw [if_neg]
    simp [h]

/-- Witness for C2: stopping the active sample session twice yields the
same state and outcome as stopping it once, and a stop request on the
already-stopping state `mB` is a no-op. -/
theorem c2_witness :
    stop_all_recordings (stop_all_recordings mA env0).1 env0 =
      stop_all_recordings mA env0 ∧
    stop_request mB = mB :=
  ⟨c2_stop_idempotent.1 mA env0 env0,
   c2_stop_idempotent.2.2.2 mB (by decide)⟩

/-- C7: the tray left-click handler takes the same path as
`stop_all_recordings`: with a session active it performs the normal
shutdown, and with `media_process = None` it returns immediately without
invoking any teardown (state unchanged, no stop signal sent). -/
theorem c7_tray_stop_path :
    (∀ (m : MState) (env : ShutdownEnv), m.st.media_process.isSome = false →
        onTrayLeftClick m env = (m, none)) ∧
    (∀ (m : MState) (env : ShutdownEnv), m.st.media_process.isSome = true →
        onTrayLeftClick m env =
          ((stop_all_recordings m env).1, some (stop_all_recordings m env).2)) ∧
    (∀ (m : MState) (env : ShutdownEnv), m.st.media_process.isSome = false →
        (onTrayLeftClick m env).1.stop_signals = m.stop_signals) := by
  refine ⟨?_, ?_, ?_⟩ <;> intro m env h <;> simp [onTrayLeftClick, h]

/-- Witness for C7: a tray click with no session active is a no-op; a
tray click on the active sample session runs the stop path. -/
theorem c7_witness :
    onTrayLeftClick m0 env0 = (m0, none) ∧
    onTrayLeftClick mA env0 =
      ((stop_all_recordings mA env0).1, some (stop_all_recordings mA env0).2) :=
  ⟨c7_tray_stop_path.1 m0 env0 (by decide),
   c7_tray_stop_path.2.1 mA env0 (by decide)⟩

theorem stopDrainPoint_bounds (m : MState) (env : ShutdownEnv) :
    (stopDrainPoint m env).st.max_screen_width = m.st.max_screen_width ∧
    (stopDrainPoint m env).st.max_screen_height = m.st.max_screen_height := by
  obtain ⟨_, _, _, _, _, _, h7, h8, _⟩ :=
    runDrain_preserves env.completions (step (step (step m .stopReq) .videoDone) .audioDone)
  have s1 := step_preserves_bounds m .stopReq
  have s2 := step_preserves_bounds (step m .stopReq) .videoDone
  have s3 := step_preserves_bounds (step (step m .stopReq) .videoDone) .audioDone
  exact ⟨h7.trans (s3.1.trans (s2.1.trans s1.1)),
    h8.trans (s3.2.trans (s2.2.trans s1.2))⟩

theorem stop_all_preserves_bounds (m : MState) (env : ShutdownEnv) :
    (stop_all_recordings m env).1.st.max_screen_width = m.st.max_screen_width ∧
    (stop_all_recordings m env).1.st.max_screen_height = m.st.max_screen_height := by
  have hd := stopDrainPoint_bounds m env
  have hf := step_preserves_bounds (stopDrainPoint m env) .finish
  unfold stop_all_recordings
  by_cases hm : m.st.media_process.isSome = true
  · rw [if_pos hm]
    by_cases he : (stopDrainPoint m env).st.upload_handles.isEmpty = true
    · rw [if_pos he]
      exact ⟨hf.1.trans hd.1, hf.2.trans hd.2⟩
    · rw [if_neg he]
      exact ⟨hd.1, hd.2⟩
  · rw [if_neg hm]
    exact ⟨rfl, rfl⟩

/-- C5: the capture bounds are the width and height of the primary
display's maximum-resolution video mode (the mode whose pixel count is
maximal among all reported modes, as computed by `max_by_key` at
application startup), they are written exactly once — into the state
built at setup, before any command can read them — and no operation of
the core ever mutates them; every successful start request passed
region validation/clamping against this ceiling. -/
theorem c5_capture_bounds :
    (∀ (modes : List VideoMode) (c : VideoMode), maxMode modes = some c →
        c ∈ modes ∧ ∀ x ∈ modes, modeKey x ≤ modeKey c) ∧
    (∀ (d : Option (List String)) (modes : List VideoMode) (c : VideoMode),
        maxMode modes = some c →
        (setupRecordingState d modes).max_screen_width = c.width ∧
        (setupRecordingState d modes).max_screen_height = c.height) ∧
    (∀ (d : Option (List String)),
        (setupRecordingState d []).max_screen_width = 0 ∧
        (setupRecordingState d []).max_screen_height = 0) ∧
    (∀ (m : MState) (e : Ev),
        (step m e).st.max_screen_width = m.st.max_screen_width ∧
        (step m e).st.max_screen_height = m.st.max_screen_height) ∧
    (∀ (m : MState) (env : ShutdownEnv),
        (stop_all_recordings m env).1.st.max_screen_width = m.st.max_screen_width ∧
        (stop_all_recordings m env).1.st.max_screen_height = m.st.max_screen_height) ∧
    (∀ (st : RecordingState) (opts : RecordingOptions) (sp : Option Nat)
        (st' : RecordingState), start_dual_recording st opts sp = .ok st' →
        regionValid opts.region st.max_screen_width st.max_screen_height = true) := by
  refine ⟨maxMode_spec, ?_, ?_, step_preserves_bounds, stop_all_preserves_bounds, ?_⟩
  · intro d modes c h
    constructor
    · show (maxDims modes).1 = c.width
      rw [maxDims, h]
    · show (maxDims modes).2 = c.height
      rw [maxDims, h]
  · intro d
    exact ⟨rfl, rfl⟩
  · intro st opts sp st' h
    exact (start_ok_elim h).2.1

/-- Witness for C5: on a two-mode display the bounds come from the
1920x1080 mode, whose pixel count dominates, and the successful sample
start validated its region against those bounds. -/
theorem c5_witness :
    sampleMode ∈ [smallMode, sampleMode] ∧
    (setupRecordingState (some ["data"]) [smallMode, sampleMode]).max_screen_width =
      sampleMode.width ∧
    regionValid sampleOpts.region st0.max_screen_width st0.max_screen_height = true :=
  ⟨(c5_capture_bounds.1 [smallMode, sampleMode] sampleMode (by decide)).1,
   (c5_capture_bounds.2.1 (some ["data"]) [smallMode, sampleMode] sampleMode (by decide)).1,
   c5_capture_bounds.2.2.2.2.2 st0 sampleOpts (some 7) mA.st rfl⟩

/-- C6: the Session State is created empty at application startup
(process `None`, options `None`, shutdown and both stream-done flags
false, upload registry empty); a successful start populates
`media_process`, `recording_options` and the session output directory;
and a completed stop sequence resets the state to the same empty form. -/
theorem c6_session_lifecycle :
    (∀ (d : Option (List String)) (modes : List VideoMode),
        (setupRecordingState d modes).media_process = none ∧
        (setupRecordingState d modes).recording_options = none ∧
        (setupRecordingState d modes).shutdown_flag = false ∧
        (setupRecordingState d modes).video_uploading_finished = false ∧
        (setupRecordingState d modes).audio_uploading_finished = false ∧
        (setupRecordingState d modes).upload_handles = []) ∧
    (∀ (st : RecordingState) (opts : RecordingOptions) (sp : Option Nat)
        (st' : RecordingState), start_dual_recording st opts sp = .ok st' →
        (∃ pid, sp = some pid ∧ st'.media_process = some pid) ∧
        st'.recording_options = some opts ∧
        st'.data_dir = some opts.output_path) ∧
    (∀ (m : MState) (env : ShutdownEnv), m.st.media_process.isSome = true →
        (stop_all_recordings m env).1.st.media_process = none ∧
        (stop_all_recordings m env).1.st.recording_options = none ∧
        (stop_all_recordings m env).1.st.shutdown_flag = false ∧
        (stop_all_recordings m env).1.st.video_uploading_finished = false ∧
        (stop_all_recordings m env).1.st.audio_uploading_finished = false ∧
        (stop_all_recordings m env).1.st.upload_handles = []) := by
  refine ⟨?_, ?_, ?_⟩
  · intro d modes
    exact ⟨rfl, rfl, rfl, rfl, rfl, rfl⟩
  · intro st opts sp st' h
    obtain ⟨_, _, pid, hsp, hst⟩ := start_ok_elim h
    subst hst
    exact ⟨⟨pid, hsp, rfl⟩, rfl, rfl⟩
  · intro m env hm
    have post := stop_all_active_post m env hm
    exact ⟨post.1, post.2.1, post.2.2.1, post.2.2.2.1, post.2.2.2.2.1,
      post.2.2.2.2.2.1⟩

/-- Witness for C6: the sample start populated the session fields, and
stopping the active sample session resets them to the empty form. -/
theorem c6_witness :
    mA.st.recording_options = some sampleOpts ∧
    (stop_all_recordings mA env0).1.st.media_process = none :=
  ⟨(c6_session_lifecycle.2.1 st0 sampleOpts (some 7) mA.st rfl).2.1,
   (c6_session_lifecycle.2.2 mA env0 (by decide)).1⟩

/-- C3: within a single session the per-stream completion flags are
monotone — while the session exists (`media_process` stays `Some`) a
flag that is true never reverts to false, so each transitions false to
true at most once — and the session is reset to Idle by the final
drain transition only when both flags are true and the upload registry
is empty. -/
theorem c3_stream_flags_monotone :
    (∀ (m : MState) (e : Ev), m.st.media_process.isSome = true →
        m.st.video_uploading_finished = true →
        (step m e).st.media_process.isSome = true →
        (step m e).st.video_uploading_finished = true) ∧
    (∀ (m : MState) (e : Ev), m.st.media_process.isSome = true →
        m.st.audio_uploading_finished = true →
        (step m e).st.media_process.isSome = true →
        (step m e).st.audio_uploading_finished = true) ∧
    (∀ (m : MState), m.st.media_process.isSome = true →
        (step m .finish).st.media_process = none →
        m.st.video_uploading_finished = true ∧
        m.st.audio_uploading_finished = true ∧
        m.st.upload_handles = []) := by
  refine ⟨?_, ?_, ?_⟩
  · intro m e h1 h2 h3
    cases e with
    | start opts sp =>
        have hs := start_active opts sp h1
        simp only [step, hs]
        exact h2
    | stopReq =>
        simp only [step, stop_request]
        split <;> exact h2
    | videoDone =>
        simp only [step, mark_video_done]
        split <;> rfl
    | audioDone =>
        simp only [step, mark_audio_done]
        split <;> exact h2
    | register h =>
        simp only [step, register_upload]
        split <;> exact h2
    | complete h ok => exact h2
    | finish =>
        simp only [step, finish_stop] at h3 ⊢
        by_cases hg : (m.st.shutdown_flag = true ∧ m.st.video_uploading_finished = true ∧
            m.st.audio_uploading_finished = true ∧ m.st.upload_handles.isEmpty = true)
        · rw [if_pos hg] at h3
          simp [resetSession] at h3
        · rw [if_neg hg]
          exact h2
  · intro m e h1 h2 h3
    cases e with
    | start opts sp =>
        have hs := start_active opts sp h1
        simp only [step, hs]
        exact h2
    | stopReq =>
        simp only [step, stop_request]
        split <;> exact h2
    | videoDone =>
        simp only [step, mark_video_done]
        split <;> exact h2
    | audioDone =>
        simp only [step, mark_audio_done]
        split <;> rfl
    | register h =>
        simp only [step, register_upload]
        split <;> exact h2
    | complete h ok => exact h2
    | finish =>
        simp only [step, finish_stop] at h3 ⊢
        by_cases hg : (m.st.shutdown_flag = true ∧ m.st.video_uploading_finished = true ∧
            m.st.audio_uploading_finished = true ∧ m.st.upload_handles.isEmpty = true)
        · rw [if_pos hg] at h3
          simp [resetSession] at h3
        · rw [if_neg hg]
          exact h2
  · intro m h1 h2
    simp only [step, finish_stop] at h2
    by_cases hg : (m.st.shutdown_flag = true ∧ m.st.video_uploading_finished = true ∧
        m.st.audio_uploading_finished = true ∧ m.st.upload_handles.isEmpty = true)
    · obtain ⟨hf, hv, ha, he⟩ := hg
      exact ⟨hv, ha, by simpa using he⟩
    · rw [if_neg hg] at h2
      rw [h2] at h1
      simp at h1

/-- Witness for C3: with the sample session stopping and its video flag
already set, a further event leaves the flag set. -/
theorem c3_witness :
    (step (step mB .videoDone) .audioDone).st.video_uploading_finished = true :=
  c3_stream_flags_monotone.1 (step mB .videoDone) .audioDone
    (by decide) (by decide) (by decide)

/-- C8: once `shutdown_requested` (`shutdown_flag`) is true it never
becomes false again for the lifetime of the session: no core transition
that keeps the session alive (`media_process` still `Some`) resets the
flag. -/
theorem c8_shutdown_flag_monotone :
    ∀ (m : MState) (e : Ev), m.st.media_process.isSome = true →
      m.st.shutdown_flag = true →
      (step m e).st.media_process.isSome = true →
      (step m e).st.shutdown_flag = true := by
  intro m e h1 h2 h3
  cases e with
  | start opts sp =>
      have hs := start_active opts sp h1
      simp only [step, hs]
      exact h2
  | stopReq =>
      simp only [step, stop_request]
      split
      · rfl
      · exact h2
  | videoDone =>
      simp only [step, mark_video_done]
      split <;> exact h2
  | audioDone =>
      simp only [step, mark_audio_done]
      split <;> exact h2
  | register h =>
      simp only [step, register_upload]
      split <;> exact h2
  | complete h ok => exact h2
  | finish =>
      simp only [step, finish_stop] at h3 ⊢
      by_cases hg : (m.st.shutdown_flag = true ∧ m.st.video_uploading_finished = true ∧
          m.st.audio_uploading_finished = true ∧ m.st.upload_handles.isEmpty = true)
      · rw [if_pos hg] at h3
        simp [resetSession] at h3
      · rw [if_neg hg]
        exact h2

/-- Witness for C8: after the sample stop request the shutdown flag
stays set across a further event. -/
theorem c8_witness :
    (step mB .videoDone).st.shutdown_flag = true :=
  c8_shutdown_flag_monotone mB .videoDone (by decide) (by decide) (by decide)

theorem erase_length_le (l : List Nat) (a : Nat) : (l.erase a).length ≤ l.length := by
  by_cases hm : a ∈ l
  · rw [List.length_erase_of_mem hm]
    exact Nat.sub_le _ _
  · rw [List.erase_of_not_mem hm]

/-- C4: the upload registry grows only through `register` (which appends
the new task) and shrinks only through `complete` (which removes at most
one occurrence, so no task is removed twice; completing an unregistered
task changes nothing), and `drain` succeeds exactly when the tracked set
is empty — the coordinator's reset out of UploadsDraining never fires
while a registered task remains. -/
theorem c4_upload_registry :
    (∀ (st : RecordingState) (h : Nat), st.media_process.isSome = true →
        (register_upload st h).upload_handles = st.upload_handles ++ [h]) ∧
    (∀ (m : MState) (e : Ev), (∀ h, e ≠ .register h) →
        (step m e).st.upload_handles.length ≤ m.st.upload_handles.length) ∧
    (∀ (m : MState) (e : Ev), (∀ h ok, e ≠ .complete h ok) →
        m.st.upload_handles.length ≤ (step m e).st.upload_handles.length) ∧
    (∀ (st : RecordingState) (h : Nat),
        (complete_upload st h).upload_handles.count h = st.upload_handles.count h - 1) ∧
    (∀ (st : RecordingState) (h : Nat), h ∉ st.upload_handles →
        complete_upload st h = st) ∧
    (∀ (st : RecordingState), drain_result st = .ok () ↔ st.upload_handles = []) ∧
    (∀ (m : MState), m.st.media_process.isSome = true →
        (step m .finish).st.media_process = none → m.st.upload_handles = []) := by
  refine ⟨?_, ?_, ?_, ?_, ?_, ?_, ?_⟩
  · intro st h hm
    simp [register_upload, hm]
  · intro m e hne
    cases e with
    | start opts sp =>
        simp only [step]
        cases hs : start_dual_recording m.st opts sp with
        | ok st' =>
            obtain ⟨_, _, pid, _, hst⟩ := start_ok_elim hs
            subst hst
            exact Nat.le_refl _
        | error err => exact Nat.le_refl _
    | stopReq =>
        simp only [step, stop_request]
        split <;> exact Nat.le_refl _
    | videoDone =>
        simp only [step, mark_video_done]
        split <;> exact Nat.le_refl _
    | audioDone =>
        simp only [step, mark_audio_done]
        split <;> exact Nat.le_refl _
    | register h => exact absurd rfl (hne h)
    | complete h ok => exact erase_length_le _ _
    | finish =>
        simp only [step, finish_stop]
        split
        · simp [resetSession]
        · exact Nat.le_refl _
  · intro m e hne
    cases e with
    | start opts sp =>
        simp only [step]
        cases hs : start_dual_recording m.st opts sp with
        | ok st' =>
            obtain ⟨_, _, pid, _, hst⟩ := start_ok_elim hs
            subst hst
            exact Nat.le_refl _
        | error err => exact Nat.le_refl _
    | stopReq =>
        simp only [step, stop_request]
        split <;> exact Nat.le_refl _
    | videoDone =>
        simp only [step, mark_video_done]
        split <;> exact Nat.le_refl _
    | audioDone =>
        simp only [step, mark_audio_done]
        split <;> exact Nat.le_refl _
    | register h =>
        simp only [step, register_upload]
        split
        · simp
        · exact Nat.le_refl _
    | complete h ok => exact absurd rfl (hne h ok)
    | finish =>
        simp only [step, finish_stop]
        split
        · rename_i hg
          have he : m.st.upload_handles = [] := by simpa using hg.2.2.2
          simp [resetSession, he]
        · exact Nat.le_refl _
  · intro st h
    simp [complete_upload, List.count_erase_self]
  · intro st h hmem
    simp [complete_upload, List.erase_of_not_mem hmem]
  · intro st
    unfold drain_result
    by_cases he : st.upload_handles.isEmpty = true
    · simp [he, List.isEmpty_iff.mp he]
    · rw [if_neg he]
      constructor
      · intro hcontra
        exact absurd hcontra (by simp)
      · intro hnil
        rw [hnil] at he
        simp at he
  · intro m h1 h2
    simp only [step, finish_stop] at h2
    by_cases hg : (m.st.shutdown_flag = true ∧ m.st.video_uploading_finished = true ∧
        m.st.audio_uploading_finished = true ∧ m.st.upload_handles.isEmpty = true)
    · simpa using hg.2.2.2
    · rw [if_neg hg] at h2
      rw [h2] at h1
      simp at h1

/-- Witness for C4: registering onto the active sample session appends,
completing an unregistered task is a no-op, and a non-register event
does not grow the registry. -/
theorem c4_witness :
    (register_upload mA.st 3).upload_handles = mA.st.upload_handles ++ [3] ∧
    complete_upload st0 5 = st0 ∧
    (step m0 .stopReq).st.upload_handles.length ≤ m0.st.upload_handles.length :=
  ⟨c4_upload_registry.1 mA.st 3 (by decide),
   c4_upload_registry.2.2.2.2.1 st0 5 (by decide),
   c4_upload_registry.2.1 m0 .stopReq (fun h hc => nomatch hc)⟩
